import Mathlib

/-!
Verification development for the SSR-Stats-Collector tool
(`SSR-Stats-Collector.py`).  Python strings are modelled as `List Char`,
Python dictionaries as association lists, decoded JSON payloads as the
inductive `JValue`, and the interactive workflow as explicit functions
over scripted operator input.  Network transport (the `requests`
collaborator) is not modelled: every API-calling function receives the
already-decoded response as an argument.
-/

set_option maxRecDepth 10000

abbrev Str := List Char

/-- Python `str.strip` whitespace set restricted to ASCII:
space, tab, newline, carriage return, vertical tab, form feed. -/
def isPySpace (c : Char) : Bool :=
  c == ' ' || c == '\t' || c == '\n' || c == '\r' ||
  c == Char.ofNat 11 || c == Char.ofNat 12

/-- Drop matching characters from the right end of a list. -/
def rdropWhile (p : Char → Bool) (l : Str) : Str :=
  (l.reverse.dropWhile p).reverse

/-- Model of Python `str.strip()`. -/
def pyStrip (l : Str) : Str :=
  rdropWhile isPySpace (l.dropWhile isPySpace)

/-- Model of Python `str.lower()` (ASCII). -/
def toLowerStr (l : Str) : Str := l.map Char.toLower

def httpScheme : Str := "http://".data
def httpsScheme : Str := "https://".data
def apiV1Tail : Str := "/api/v1".data

/-- The scheme test of `normalize_base_url`:
`b.startswith("http://") or b.startswith("https://")` (negated in source). -/
def startsHttp (b : Str) : Bool :=
  httpScheme.isPrefixOf b || httpsScheme.isPrefixOf b

/-- Model of Python `b.rstrip("/")`. -/
def rstripSlash (l : Str) : Str := rdropWhile (fun c => c == '/') l

/-- Model of `b.endswith("/api/v1")`. -/
def endsWithStr (sfx l : Str) : Bool := sfx.isSuffixOf l

/-- Embedding of `normalize_base_url` (SSR-Stats-Collector.py lines 86-104):
strip whitespace; empty stays empty; prepend `https://` when no scheme;
strip trailing slashes; append `/api/v1` unless already present. -/
def normalize_base_url (raw : Str) : Str :=
  let b := pyStrip raw
  if b.isEmpty then []
  else
    let b1 := if startsHttp b then b else httpsScheme ++ b
    let b2 := rstripSlash b1
    if endsWithStr apiV1Tail b2 then b2 else b2 ++ apiV1Tail

-- ---------------------------------------------------------------------------
-- Credential file parsing (load_token_org_url, lines 107-194)
-- ---------------------------------------------------------------------------

/-- Python truthiness of an optional string: `None` and `""` are falsy. -/
def truthyS (o : Option Str) : Bool :=
  match o with
  | some s => !s.isEmpty
  | none => false

/-- Python `a or b` on optional strings: keep `a` when truthy, else `b`. -/
def pyOrS (a b : Option Str) : Option Str :=
  if truthyS a then a else b

/-- First-match lookup in an association list keyed by strings. -/
def lookupStr {α : Type} : List (Str × α) → Str → Option α
  | [], _ => none
  | (k, v) :: rest, q => if k == q then some v else lookupStr rest q

/-- Insert into an association list, replacing an existing binding
(the overwrite behaviour of a Python dict assignment). -/
def dictInsert {α : Type} : List (Str × α) → Str → α → List (Str × α)
  | [], k, v => [(k, v)]
  | (k', v') :: rest, k, v =>
    if k' == k then (k, v) :: rest else (k', v') :: dictInsert rest k v

/-- Model of Python `str.splitlines()` restricted to `\n`, `\r` and `\r\n`
terminators (each parsed line is stripped before use, which absorbs the
remaining whitespace-class terminators). -/
def splitLines (l : Str) : List Str :=
  go l []
where
  go : Str → Str → List Str
    | [], acc => if acc.isEmpty then [] else [acc.reverse]
    | '\r' :: '\n' :: rest, acc => acc.reverse :: go rest []
    | '\r' :: rest, acc => acc.reverse :: go rest []
    | '\n' :: rest, acc => acc.reverse :: go rest []
    | c :: rest, acc => go rest (c :: acc)

/-- Non-comment credential lines: each raw line stripped, dropping empty
lines and lines starting with `#` (lines 159-163). -/
def credLines (raw : Str) : List Str :=
  ((splitLines raw).map pyStrip).filter
    (fun l => !l.isEmpty && !(['#'].isPrefixOf l))

/-- Split a line at the first `=` (Python `line.split("=", 1)`),
assuming the caller checked that `=` occurs. -/
def splitEq (l : Str) : Str × Str :=
  (l.takeWhile (fun c => !(c == '=')), (l.dropWhile (fun c => !(c == '='))).drop 1)

/-- The `key=value` dictionary built from credential lines (lines 166-170):
keys are stripped and lowercased, values stripped, later lines overwrite. -/
def kvDict (lines : List Str) : List (Str × Str) :=
  lines.foldl
    (fun m line =>
      if line.contains '=' then
        let kv := splitEq line
        dictInsert m (toLowerStr (pyStrip kv.1)) (pyStrip kv.2)
      else m)
    []

/-- A JSON-decoded credential dictionary, restricted to string values
(the shapes the credential file documents). -/
abbrev JDict := List (Str × Str)

/-- Token extraction from the decoded JSON dict (line 149):
`data.get("token") or data.get("api_token") or data.get("MIST_TOKEN")`. -/
def jsonToken (jsonRes : Option JDict) : Option Str :=
  match jsonRes with
  | some d => pyOrS (pyOrS (lookupStr d "token".data) (lookupStr d "api_token".data))
      (lookupStr d "MIST_TOKEN".data)
  | none => none

/-- Org-id extraction from the decoded JSON dict (line 150). -/
def jsonOrg (jsonRes : Option JDict) : Option Str :=
  match jsonRes with
  | some d => pyOrS (lookupStr d "org_id".data) (lookupStr d "ORG_ID".data)
  | none => none

/-- Base-url extraction from the decoded JSON dict (line 151). -/
def jsonUrl (jsonRes : Option JDict) : Option Str :=
  match jsonRes with
  | some d => pyOrS (lookupStr d "base_url".data) (lookupStr d "BASE_URL".data)
  | none => none

/-- Python `org_id.strip() if org_id else None` (lines 156, 177, 185). -/
def orgResult (o : Option Str) : Option Str :=
  if truthyS o then some (pyStrip (o.getD [])) else none

/-- Token extraction from the key=value dict (line 173):
`kv.get("token") or kv.get("mist_token") or kv.get("api_token")`. -/
def kvToken (kv : JDict) : Option Str :=
  pyOrS (pyOrS (lookupStr kv "token".data) (lookupStr kv "mist_token".data))
    (lookupStr kv "api_token".data)

/-- Embedding of `load_token_org_url` (lines 134-194) minus file IO.
`rawFile` is the file content; `jsonRes` is the outcome of the external
`json.loads` collaborator on the stripped content, `some dict` when it
decoded to a (string-valued) object and `none` otherwise.  A `none`
result models `sys.exit(1)`. -/
def load_token_org_url (jsonRes : Option JDict) (rawFile : Str) :
    Option (Str × Option Str × Str) :=
  let raw := pyStrip rawFile
  if raw.isEmpty then none
  else
    let jTok := jsonToken jsonRes
    let jUrl := jsonUrl jsonRes
    if truthyS jTok && truthyS jUrl then
      some (pyStrip (jTok.getD []), orgResult (jsonOrg jsonRes),
        normalize_base_url (jUrl.getD []))
    else
      let lines := credLines raw
      let kv := kvDict lines
      let kTok := kvToken kv
      let kUrl := lookupStr kv "base_url".data
      if !kv.isEmpty && (truthyS kTok && truthyS kUrl) then
        some (pyStrip (kTok.getD []), orgResult (lookupStr kv "org_id".data),
          normalize_base_url (kUrl.getD []))
      else
        if lines.length ≥ 3 then
          let t := (lines.get? 0).getD []
          let o := (lines.get? 1).getD []
          let u := (lines.get? 2).getD []
          if !t.isEmpty && !u.isEmpty then
            some (pyStrip t, orgResult (some o), normalize_base_url u)
          else none
        else none

-- ---------------------------------------------------------------------------
-- Decoded JSON payloads and Python value semantics
-- ---------------------------------------------------------------------------

/-- A decoded JSON value (the result of `resp.json()` / `json.loads`).
Numbers are restricted to integers, which covers every payload the tool
inspects structurally. -/
inductive JValue where
  | null
  | bool (b : Bool)
  | num (n : Int)
  | str (s : Str)
  | arr (xs : List JValue)
  | obj (kvs : List (Str × JValue))

/-- A decoded JSON object (a statistics or inventory record). -/
abbrev JObj := List (Str × JValue)

/-- Python truthiness of a decoded JSON value. -/
def truthyJ : JValue → Bool
  | .null => false
  | .bool b => b
  | .num n => decide (n ≠ 0)
  | .str s => !s.isEmpty
  | .arr xs => !xs.isEmpty
  | .obj kvs => !kvs.isEmpty

/-- Python truthiness of an optional JSON value. -/
def truthyO (o : Option JValue) : Bool :=
  match o with
  | some v => truthyJ v
  | none => false

/-- Python `a or b` on optional JSON values. -/
def pyOrJ (a b : Option JValue) : Option JValue :=
  if truthyO a then a else b

def squote : Char := Char.ofNat 39
def lbraceC : Char := Char.ofNat 123
def rbraceC : Char := Char.ofNat 125

/-- Decimal rendering of an integer. -/
def intStr : Int → Str
  | .ofNat m => Nat.toDigits 10 m
  | .negSucc m => '-' :: Nat.toDigits 10 (m + 1)

mutual

/-- Python `str()` of a decoded JSON value: identity on strings,
`repr` on everything else. -/
def pyStr : JValue → Str
  | .str s => s
  | v => pyReprV v

/-- Python `repr()` of a decoded JSON value (string escaping inside
`repr` of strings is not modelled; no key the tool builds needs it). -/
def pyReprV : JValue → Str
  | .null => "None".data
  | .bool true => "True".data
  | .bool false => "False".data
  | .num n => intStr n
  | .str s => squote :: (s ++ [squote])
  | .arr xs => '[' :: (pyReprL xs ++ [']'])
  | .obj kvs => lbraceC :: (pyReprKV kvs ++ [rbraceC])

def pyReprL : List JValue → Str
  | [] => []
  | [x] => pyReprV x
  | x :: y :: xs => pyReprV x ++ ", ".data ++ pyReprL (y :: xs)

def pyReprKV : List (Str × JValue) → Str
  | [] => []
  | [(k, v)] => pyReprV (.str k) ++ ": ".data ++ pyReprV v
  | (k, v) :: q :: xs => pyReprV (.str k) ++ ": ".data ++ pyReprV v
      ++ ", ".data ++ pyReprKV (q :: xs)

end

-- ---------------------------------------------------------------------------
-- json.dumps(v, indent=2, sort_keys=True)  (external json collaborator)
-- ---------------------------------------------------------------------------

/-- Lexicographic comparison of strings by code point (Python `<`). -/
def lexLt : Str → Str → Bool
  | [], [] => false
  | [], _ :: _ => true
  | _ :: _, [] => false
  | a :: as, b :: bs =>
    if a.toNat < b.toNat then true
    else if b.toNat < a.toNat then false
    else lexLt as bs

/-- Insertion into a key-sorted pair list. -/
def insertByKey (p : Str × JValue) : List (Str × JValue) → List (Str × JValue)
  | [] => [p]
  | q :: rest => if lexLt q.1 p.1 then q :: insertByKey p rest else p :: q :: rest

/-- Sort object entries by key. -/
def sortPairs (l : List (Str × JValue)) : List (Str × JValue) :=
  l.foldr insertByKey []

mutual

/-- Recursively sort every object's keys, the effect of `sort_keys=True`. -/
def sortKeysV : JValue → JValue
  | .obj kvs => .obj (sortPairs (sortKeysKV kvs))
  | .arr xs => .arr (sortKeysL xs)
  | v => v

def sortKeysL : List JValue → List JValue
  | [] => []
  | x :: xs => sortKeysV x :: sortKeysL xs

def sortKeysKV : List (Str × JValue) → List (Str × JValue)
  | [] => []
  | (k, v) :: xs => (k, sortKeysV v) :: sortKeysKV xs

end

/-- Two-space indentation at the given nesting level. -/
def ind2 (lvl : Nat) : Str := List.replicate (2 * lvl) ' '

/-- JSON string escaping (the escapes the tool's data can contain). -/
def jsonEscape : Str → Str
  | [] => []
  | c :: rest =>
    (if c == '"' then ['\\', '"']
     else if c == '\\' then ['\\', '\\']
     else if c == '\n' then ['\\', 'n']
     else if c == '\t' then ['\\', 't']
     else if c == '\r' then ['\\', 'r']
     else [c]) ++ jsonEscape rest

def jsonQuote (s : Str) : Str := '"' :: (jsonEscape s ++ ['"'])

mutual

/-- Serialization of a (pre-key-sorted) JSON value in the format of
Python `json.dumps(v, indent=2)`. -/
def serV (lvl : Nat) : JValue → Str
  | .null => "null".data
  | .bool true => "true".data
  | .bool false => "false".data
  | .num n => intStr n
  | .str s => jsonQuote s
  | .arr [] => "[]".data
  | .arr (x :: xs) =>
    '[' :: '\n' :: (serArrItems (lvl + 1) (x :: xs) ++ '\n' :: (ind2 lvl ++ [']']))
  | .obj [] => [lbraceC, rbraceC]
  | .obj (kv :: kvs) =>
    lbraceC :: '\n' :: (serObjItems (lvl + 1) (kv :: kvs) ++ '\n' :: (ind2 lvl ++ [rbraceC]))

def serArrItems (lvl : Nat) : List JValue → Str
  | [] => []
  | [x] => ind2 lvl ++ serV lvl x
  | x :: y :: ys => ind2 lvl ++ serV lvl x ++ ',' :: '\n' :: serArrItems lvl (y :: ys)

def serObjItems (lvl : Nat) : List (Str × JValue) → Str
  | [] => []
  | [(k, w)] => ind2 lvl ++ jsonQuote k ++ ':' :: ' ' :: serV lvl w
  | (k, w) :: q :: qs => ind2 lvl ++ jsonQuote k ++ ':' :: ' ' :: serV lvl w
      ++ ',' :: '\n' :: serObjItems lvl (q :: qs)

end

/-- Model of `json.dumps(v, indent=2, sort_keys=True)`. -/
def dumps2 (v : JValue) : Str := serV 0 (sortKeysV v)

-- ---------------------------------------------------------------------------
-- API request construction (get_sites / get_gateways_for_site /
-- get_all_gateway_stats, lines 232-304) and response classification
-- ---------------------------------------------------------------------------

/-- A query-parameter value: string or integer. -/
inductive PVal where
  | s (v : Str)
  | n (v : Int)
deriving DecidableEq

/-- An HTTP GET request as the tool builds it: URL and query parameters. -/
structure Request where
  url : Str
  params : List (Str × PVal)

/-- Request built by `get_sites` (lines 238-239): note the hardcoded
`limit` of 1000 — the function takes no limit parameter. -/
def get_sites_request (org_id base_url : Str) : Request :=
  ⟨rstripSlash base_url ++ "/orgs/".data ++ org_id ++ "/sites".data,
   [("limit".data, .n 1000)]⟩

/-- Request built by `get_gateways_for_site` (lines 262-266). -/
def get_gateways_request (site_id base_url : Str) (limit : Int) : Request :=
  ⟨rstripSlash base_url ++ "/sites/".data ++ site_id ++ "/devices".data,
   [("type".data, .s "gateway".data), ("limit".data, .n limit)]⟩

/-- Request built by `get_all_gateway_stats` (lines 288-292). -/
def get_all_stats_request (site_id base_url : Str) (limit : Int) : Request :=
  ⟨rstripSlash base_url ++ "/sites/".data ++ site_id ++ "/stats/devices".data,
   [("type".data, .s "gateway".data), ("limit".data, .n limit)]⟩

/-- The sites call as issued by the interactive workflow (line 449):
the workflow's `limit` argument is not threaded into `get_sites`. -/
def workflow_sites_call (_limit : Int) (org_id base_url : Str) : Request :=
  get_sites_request org_id base_url

/-- The parsed `--limit` default (parse_args, lines 596-601). -/
def argsLimitDefault : Int := 1000

/-- The `limit` query parameter of a request. -/
def limitParam (r : Request) : Option PVal := lookupStr r.params "limit".data

/-- Lookup in a decoded JSON object (Python `dict.get`). -/
def objGet (o : JObj) (k : Str) : Option JValue := lookupStr o k

/-- Membership test in a decoded JSON object (Python `"k" in data`). -/
def objHas (o : JObj) (k : Str) : Bool := (objGet o k).isSome

/-- Shared result classification of the three list endpoints
(get_sites lines 243-250, get_gateways_for_site lines 270-277,
get_all_gateway_stats lines 296-304): a bare list is returned as is; a
dict containing "results" returns `data.get("results", [])`; anything
else dumps the raw payload and exits nonzero (modelled as `.error` with
the dumped payload). -/
def api_list_extract (data : JValue) : Except JValue JValue :=
  match data with
  | .arr xs => .ok (.arr xs)
  | .obj kvs =>
    if objHas kvs "results".data then .ok ((objGet kvs "results".data).getD (.arr []))
    else .error (.obj kvs)
  | v => .error v

-- ---------------------------------------------------------------------------
-- Sites, gateways, statistics lookup (interactive workflow data)
-- ---------------------------------------------------------------------------

/-- A site record: the fields the tool reads (absent key = `none`). -/
structure Site where
  name : Option Str
  id : Option Str

/-- A gateway inventory record: the fields the tool reads. -/
structure Gateway where
  name : Option Str
  routerName : Option Str
  mac : Option Str
  id : Option Str
  model : Option Str
  status : Option Str
  iid : Option Str

/-- The site filter of the workflow (lines 457-460): drop every site
whose name lowercases to "main_site". -/
def siteFilter (l : List Site) : List Site :=
  l.filter (fun s => !(toLowerStr (s.name.getD []) == "main_site".data))

/-- Line 461: show the filtered list unless the filter removed
everything, in which case show the unfiltered list. -/
def displayedSites (l : List Site) : List Site :=
  let f := siteFilter l
  if f.isEmpty then l else f

/-- The label shown for a site (lines 463-467). -/
def siteLabel (s : Site) : Str :=
  s.name.getD "unnamed-site".data ++ " (".data ++ s.id.getD [] ++ ")".data

/-- Device-id field with Python default `""` (line 530). -/
def devIdOf (gw : Gateway) : Str := gw.id.getD []

/-- MAC field with Python default `""` (line 529). -/
def macOf (gw : Gateway) : Str := gw.mac.getD []

/-- The label printed for a gateway (lines 498-506). -/
def gatewayLabel (idx : Nat) (gw : Gateway) : Str :=
  '[' :: (Nat.toDigits 10 idx ++ "] ".data)
    ++ (pyOrS (pyOrS gw.name gw.routerName) (some "unnamed".data)).getD []
    ++ "  MAC:".data ++ macOf gw ++ "  ID:".data ++ devIdOf gw
    ++ "  Model:".data ++ gw.model.getD [] ++ "  Status:".data ++ gw.status.getD []

/-- The numbered gateway labels (enumerate starting at 1). -/
def gatewayLabels (gws : List Gateway) : List Str :=
  (List.range gws.length).map (fun i => gatewayLabel (i + 1) (gws.getD i
    ⟨none, none, none, none, none, none, none⟩))

/-- The statistics-map key of one record (line 512):
`st.get("id") or st.get("_id") or st.get("mac")`, stringified, and
dropped when falsy (line 513). -/
def statKey (st : JObj) : Option Str :=
  match pyOrJ (pyOrJ (objGet st "id".data) (objGet st "_id".data))
      (objGet st "mac".data) with
  | some v => if truthyJ v then some (pyStr v) else none
  | none => none

/-- The per-site statistics lookup map (lines 510-514). -/
def buildStatsByKey (l : List JObj) : List (Str × JObj) :=
  l.foldl
    (fun m st =>
      match statKey st with
      | some k => dictInsert m k st
      | none => m)
    []

/-- The inventory key of the selected gateway (line 545):
`dev_id or mac or gw.get("_id")`. -/
def invKeyOf (gw : Gateway) : Option Str :=
  if !(devIdOf gw).isEmpty then some (devIdOf gw)
  else if !(macOf gw).isEmpty then some (macOf gw)
  else gw.iid

/-- Statistics resolution for a selected gateway (lines 545-553):
look up the inventory key, then fall back to the MAC. -/
def resolveStats (gw : Gateway) (m : List (Str × JObj)) : Option JObj :=
  let s0 := match invKeyOf gw with
    | some k => lookupStr m k
    | none => none
  match s0 with
  | some st => some st
  | none => if !(macOf gw).isEmpty then lookupStr m (macOf gw) else none

-- ---------------------------------------------------------------------------
-- Interactive menus and workflow (choose_from_list, lines 398-423;
-- interactive_stats_workflow, lines 426-566)
-- ---------------------------------------------------------------------------

/-- Quit commands accepted by the prompts (lines 415, 481). -/
def isQuitStr (ch : Str) : Bool :=
  ch == "q".data || ch == "quit".data || ch == "x".data || ch == "exit".data

/-- Python `str.isdigit()` (ASCII): non-empty and all decimal digits. -/
def isDigitStr (ch : Str) : Bool := !ch.isEmpty && ch.all Char.isDigit

/-- Decimal parse of a digit string (Python `int`). -/
def strToNat (ch : Str) : Nat :=
  ch.foldl (fun a c => 10 * a + (c.toNat - 48)) 0

/-- The prompt loop of `choose_from_list` (lines 413-423) over scripted
operator input; `none` models reaching end of input. -/
def chooseLoop (n : Nat) : List Str → Option (Option Nat × List Str)
  | [] => none
  | c :: rest =>
    let ch := toLowerStr (pyStrip c)
    if isQuitStr ch then some (none, rest)
    else if isDigitStr ch then
      let i := strToNat ch
      if 1 ≤ i ∧ i ≤ n then some (some (i - 1), rest) else chooseLoop n rest
    else chooseLoop n rest

/-- Embedding of `choose_from_list`: an empty item list returns `None`
immediately (lines 404-406); otherwise the prompt loop runs. -/
def choose_from_list (items : List Str) (inputs : List Str) :
    Option (Option Nat × List Str) :=
  if items.isEmpty then some (none, inputs)
  else chooseLoop items.length inputs

/-- Observable output events of one iteration of the workflow's outer
loop (status text and displays, keyed to the source lines). -/
inductive Ev where
  | noSites                      -- line 453
  | exitViewer                   -- lines 471, 482
  | errNoSiteId                  -- line 476
  | orgMissing                   -- line 479
  | selectedSite (sid : Str)     -- line 486
  | noGateways                   -- line 491
  | listedGateways (n : Nat)     -- lines 496-506
  | noStatsFound                 -- line 556
  | shownStatsJson (st : JObj)   -- line 560
  | shownStatsPretty (st : JObj) -- line 562
  | ackWait                      -- line 565

/-- Result of one iteration of the outer `while True` loop:
`stop` models `return`, `again` models `continue`/falling through. -/
inductive IterRes where
  | stop
  | again
deriving DecidableEq

/-- Outcome of the site-selection step. -/
inductive SiteOutcome where
  | stop
  | proceed (sid : Str)

/-- Site-selection step of one outer-loop iteration (lines 446-483).
Transport failures (the `except SystemExit` around `get_sites`) are not
modelled; `sitesResp` is the already-parsed response. -/
def sitePhase (org : Option Str) (sitesResp : List Site) (inputs : List Str) :
    Option (SiteOutcome × List Ev × List Str) :=
  if truthyS org then
    if sitesResp.isEmpty then some (.stop, [.noSites], inputs)
    else
      let sites := displayedSites sitesResp
      match choose_from_list (sites.map siteLabel) inputs with
      | none => none
      | some (none, rest) => some (.stop, [.exitViewer], rest)
      | some (some i, rest) =>
        match sites.get? i with
        | none => none
        | some s =>
          match s.id with
          | none => some (.stop, [.errNoSiteId], rest)
          | some sid =>
            if sid.isEmpty then some (.stop, [.errNoSiteId], rest)
            else some (.proceed sid, [], rest)
  else
    match inputs with
    | [] => none
    | c :: rest =>
      let s := pyStrip c
      if s.isEmpty || isQuitStr (toLowerStr s) then
        some (.stop, [.orgMissing, .exitViewer], rest)
      else some (.proceed s, [.orgMissing], rest)

/-- Gateway-selection and detail-display step of one outer-loop
iteration (lines 489-566); `gwsResp`/`statsResp` are the parsed
responses for the chosen site. -/
def gatewayPhase (gwsResp : List Gateway) (statsResp : List JObj)
    (jsonOut : Bool) (inputs : List Str) :
    Option (IterRes × List Ev × List Str) :=
  if gwsResp.isEmpty then some (.again, [.noGateways], inputs)
  else
    let m := buildStatsByKey statsResp
    match choose_from_list (gatewayLabels gwsResp) inputs with
    | none => none
    | some (none, rest) => some (.again, [.listedGateways gwsResp.length], rest)
    | some (some gi, rest) =>
      match gwsResp.get? gi with
      | none => none
      | some gw =>
        let st := resolveStats gw m
        let ev := match st with
          | none => Ev.noStatsFound
          | some s => if jsonOut then Ev.shownStatsJson s else Ev.shownStatsPretty s
        match rest with
        | [] => none
        | _ :: rest2 =>
          some (.again, [.listedGateways gwsResp.length, ev, .ackWait], rest2)

/-- One iteration of the outer loop of `interactive_stats_workflow`
(lines 445-566): site selection, then gateway selection and display.
`gws`/`stats` give the parsed per-site responses. -/
def outerIteration (org : Option Str) (sitesResp : List Site)
    (gws : Str → List Gateway) (stats : Str → List JObj)
    (jsonOut : Bool) (inputs : List Str) :
    Option (IterRes × List Ev × List Str) :=
  match sitePhase org sitesResp inputs with
  | none => none
  | some (.stop, evs, rest) => some (.stop, evs, rest)
  | some (.proceed sid, evs, rest) =>
    match gatewayPhase (gws sid) (stats sid) jsonOut rest with
    | none => none
    | some (res, evs2, rest2) =>
      some (res, evs ++ Ev.selectedSite sid :: evs2, rest2)

/-- Display events: a shown statistics record or a reported absence. -/
def isDisplayEv : Ev → Bool
  | .noStatsFound => true
  | .shownStatsJson _ => true
  | .shownStatsPretty _ => true
  | _ => false

/-- The acknowledgment prompt event. -/
def evAck : Ev → Bool
  | .ackWait => true
  | _ => false

/-- Status messages that accompany a workflow `return`. -/
def evTermMsg : Ev → Bool
  | .noSites => true
  | .exitViewer => true
  | .errNoSiteId => true
  | _ => false

-- ---------------------------------------------------------------------------
-- Non-interactive mode (main, lines 616-633)
-- ---------------------------------------------------------------------------

/-- Output of the non-interactive `--site` branch. -/
inductive MainOut where
  | jsonText (s : Str)
  | prettyOne (v : JObj)
  | prettyMany (vs : List JValue)

/-- The `--site` branch of `main` (lines 617-633): with `--device-id`
the single record is dumped or pretty-printed, otherwise the full
statistics list is.  `dev_stats`/`devices_stats` are the parsed
responses of the two statistics endpoints. -/
def main_site_branch (jsonFlag : Bool) (deviceId : Option Str)
    (dev_stats : JObj) (devices_stats : List JValue) : MainOut :=
  match deviceId with
  | some _ =>
    if jsonFlag then .jsonText (dumps2 (.obj dev_stats)) else .prettyOne dev_stats
  | none =>
    if jsonFlag then .jsonText (dumps2 (.arr devices_stats))
    else .prettyMany devices_stats

/-- Test for the bare-sequence response shape. -/
def isArrV : JValue → Bool
  | .arr _ => true
  | _ => false

/-- Example gateway of the statistics-matching scenario:
`id="dev1"`, `mac="AA:BB"`. -/
def gwC5 : Gateway :=
  ⟨some "gw".data, none, some "AA:BB".data, some "dev1".data, none, none, none⟩

/-- Example statistics record keyed by its id `"dev1"`. -/
def stC5A : JObj := [("id".data, .str "dev1".data), ("x".data, .num 1)]

/-- Example statistics record keyed by its MAC `"AA:BB"` (no id). -/
def stC5B : JObj := [("mac".data, .str "AA:BB".data)]

/-- Example decoded credential dictionary. -/
def credDictEx : JDict :=
  [("token".data, "T".data), ("base_url".data, "api.example.com".data)]

-- Self-contained correctness lemmas for the boolean prefix/suffix tests.

theorem isPrefixOf_self_append (p t : Str) : p.isPrefixOf (p ++ t) = true := by
  induction p with
  | nil => simp [List.isPrefixOf]
  | cons a as ih => simp [List.isPrefixOf, ih]

theorem isPrefixOf_exists (p : Str) :
    ∀ l : Str, p.isPrefixOf l = true → ∃ t, l = p ++ t := by
  induction p with
  | nil => intro l _; exact ⟨l, rfl⟩
  | cons a as ih =>
    intro l h
    cases l with
    | nil => simp [List.isPrefixOf] at h
    | cons b bs =>
      simp only [List.isPrefixOf, Bool.and_eq_true, beq_iff_eq] at h
      obtain ⟨t, ht⟩ := ih bs h.2
      exact ⟨t, by simp [h.1, ht]⟩

theorem endsWithStr_append (t sfx : Str) : endsWithStr sfx (t ++ sfx) = true := by
  unfold endsWithStr
  unfold List.isSuffixOf
  rw [List.reverse_append]
  exact isPrefixOf_self_append sfx.reverse t.reverse

theorem endsWithStr_exists {sfx l : Str} (h : endsWithStr sfx l = true) :
    ∃ t, l = t ++ sfx := by
  unfold endsWithStr List.isSuffixOf at h
  obtain ⟨t, ht⟩ := isPrefixOf_exists sfx.reverse l.reverse h
  refine ⟨t.reverse, ?_⟩
  have := congrArg List.reverse ht
  simpa using this

/-- Every non-empty normalization result ends with the `/api/v1` tail. -/
theorem normalize_ends_api (s : Str) :
    normalize_base_url s = [] ∨ ∃ t, normalize_base_url s = t ++ apiV1Tail := by
  unfold normalize_base_url
  cases h : (pyStrip s).isEmpty with
  | true => left; simp [h]
  | false =>
    right
    simp only [h, Bool.false_eq_true, if_false]
    cases h2 : endsWithStr apiV1Tail
      (rstripSlash (if startsHttp (pyStrip s) then pyStrip s
        else httpsScheme ++ pyStrip s)) with
    | true =>
      obtain ⟨t, ht⟩ := endsWithStr_exists h2
      exact ⟨t, by simp [h2, ht]⟩
    | false =>
      refine ⟨rstripSlash (if startsHttp (pyStrip s) then pyStrip s
        else httpsScheme ++ pyStrip s), ?_⟩
      simp [h2]

theorem startsHttp_head {r : Str} (h : startsHttp r = true) :
    ∃ r₀, r = 'h' :: r₀ := by
  unfold startsHttp at h
  cases r with
  | nil => simp [httpScheme, httpsScheme, List.isPrefixOf] at h
  | cons c cs =>
    rcases Bool.or_eq_true_iff.mp h with h1 | h1
    · obtain ⟨t, ht⟩ := isPrefixOf_exists httpScheme _ h1
      refine ⟨cs, ?_⟩
      have : c = 'h' := by
        have := congrArg (fun l => l.head?) ht
        simpa [httpScheme] using this
      simp [this]
    · obtain ⟨t, ht⟩ := isPrefixOf_exists httpsScheme _ h1
      refine ⟨cs, ?_⟩
      have : c = 'h' := by
        have := congrArg (fun l => l.head?) ht
        simpa [httpsScheme] using this
      simp [this]

theorem pyStrip_fixed {r r₀ t : Str} (hc : r = 'h' :: r₀)
    (hs : r = t ++ apiV1Tail) : pyStrip r = r := by
  unfold pyStrip rdropWhile
  have eh : isPySpace 'h' = false := by decide
  have e1 : isPySpace '1' = false := by decide
  have h1 : r.dropWhile isPySpace = r := by
    rw [hc, List.dropWhile_cons, eh]; simp
  rw [h1]
  have h2 : r.reverse.dropWhile isPySpace = r.reverse := by
    rw [hs, List.reverse_append]
    have hrev : apiV1Tail.reverse = '1' :: "v/ipa/".data := by decide
    rw [hrev]
    simp only [List.cons_append]
    rw [List.dropWhile_cons, e1]; simp
  rw [h2, List.reverse_reverse]

theorem rstripSlash_fixed {r t : Str} (hs : r = t ++ apiV1Tail) :
    rstripSlash r = r := by
  unfold rstripSlash rdropWhile
  have e1 : ('1' == '/') = false := by decide
  have h2 : r.reverse.dropWhile (fun c => c == '/') = r.reverse := by
    rw [hs, List.reverse_append]
    have hrev : apiV1Tail.reverse = '1' :: "v/ipa/".data := by decide
    rw [hrev]
    simp only [List.cons_append]
    rw [List.dropWhile_cons]
    simp [e1]
  rw [h2, List.reverse_reverse]

theorem normalize_fixed_point {r : Str} (hstart : startsHttp r = true)
    (hsfx : ∃ t, r = t ++ apiV1Tail) : normalize_base_url r = r := by
  obtain ⟨r₀, hc⟩ := startsHttp_head hstart
  obtain ⟨t, hs⟩ := hsfx
  have h1 : pyStrip r = r := pyStrip_fixed hc hs
  have h2 : rstripSlash r = r := rstripSlash_fixed hs
  have h3 : endsWithStr apiV1Tail r = true := by rw [hs]; exact endsWithStr_append t _
  have h4 : r.isEmpty = false := by rw [hc]; rfl
  unfold normalize_base_url
  simp only [h1, h4, Bool.false_eq_true, if_false, hstart, if_true, h2, h3]

theorem isEmpty_false_of_ne_nil {α : Type} {l : List α} (h : l ≠ []) :
    l.isEmpty = false := by
  cases l with
  | nil => exact absurd rfl h
  | cons a t => rfl

/-- C2 (amended): `normalize_base_url` is idempotent on every string whose
normalized form is empty or begins with a scheme ("http://"/"https://");
the three example inputs all normalize to the canonical string. -/
theorem c2_normalize_idempotent_amended :
    (∀ s : Str, (normalize_base_url s = [] ∨ startsHttp (normalize_base_url s) = true) →
      normalize_base_url (normalize_base_url s) = normalize_base_url s)
    ∧ normalize_base_url "api.example.com".data = "https://api.example.com/api/v1".data
    ∧ normalize_base_url "https://api.example.com/".data =
        "https://api.example.com/api/v1".data
    ∧ normalize_base_url "https://api.example.com/api/v1".data =
        "https://api.example.com/api/v1".data := by
  refine ⟨?_, by decide, by decide, by decide⟩
  intro s h
  rcases h with h | h
  · rw [h]; decide
  · rcases normalize_ends_api s with h0 | h0
    · rw [h0]; decide
    · exact normalize_fixed_point h h0

/-- C2 counterexample: the claim's universal idempotence fails at the
input "/", whose normalization "https:/api/v1" carries no scheme and is
normalized again to a different string. -/
theorem c2_counterexample :
    normalize_base_url (normalize_base_url "/".data) ≠ normalize_base_url "/".data := by
  decide

/-- C2 witness: the idempotence theorem applied at a concrete input. -/
theorem c2_witness :
    normalize_base_url (normalize_base_url "api.example.com".data) =
      normalize_base_url "api.example.com".data :=
  c2_normalize_idempotent_amended.1 "api.example.com".data (Or.inr (by decide))

theorem chooseLoop_safe (n : Nat) :
    ∀ (inputs : List Str) (r : Option Nat) (rest : List Str),
      chooseLoop n inputs = some (r, rest) → r = none ∨ ∃ i, r = some i ∧ i < n := by
  intro inputs
  induction inputs with
  | nil => intro r rest h; simp [chooseLoop] at h
  | cons c cs ih =>
    intro r rest h
    by_cases hq : isQuitStr (toLowerStr (pyStrip c))
    · simp [chooseLoop, hq] at h
      exact Or.inl h.1.symm
    · by_cases hd : isDigitStr (toLowerStr (pyStrip c))
      · by_cases hr : 1 ≤ strToNat (toLowerStr (pyStrip c)) ∧
            strToNat (toLowerStr (pyStrip c)) ≤ n
        · simp [chooseLoop, hq, hd, hr] at h
          right
          exact ⟨strToNat (toLowerStr (pyStrip c)) - 1, h.1.symm, by omega⟩
        · simp [chooseLoop, hq, hd, hr] at h
          exact ih r rest h
      · simp [chooseLoop, hq, hd] at h
        exact ih r rest h

/-- C10: `choose_from_list` is safe: it returns `None` (quit, or empty
item list) or a 0-based index strictly below the item count; out-of-range
and non-numeric input never escape the prompt loop. -/
theorem c10_choose_from_list_safe :
    ∀ (items inputs : List Str) (r : Option Nat) (rest : List Str),
      choose_from_list items inputs = some (r, rest) →
      r = none ∨ ∃ i, r = some i ∧ i < items.length := by
  intro items inputs r rest h
  by_cases he : items.isEmpty
  · simp [choose_from_list, he] at h
    exact Or.inl h.1.symm
  · simp [choose_from_list, he] at h
    exact chooseLoop_safe items.length inputs r rest h

/-- C10 witness: the safety theorem applied to a one-item list, where the
operator first types the out-of-range "2" and then the in-range "1". -/
theorem c10_witness :
    (some 0 : Option Nat) = none ∨
      ∃ i, (some 0 : Option Nat) = some i ∧ i < (["a".data] : List Str).length :=
  c10_choose_from_list_safe ["a".data] ["2".data, "1".data] (some 0) [] (by decide)

/-- C9: the non-interactive `--site --json` branch (without --device-id)
prints exactly the fetched statistics sequence as a key-sorted JSON
array, with no wrapping object; evaluated on two concrete records. -/
theorem c9_json_output :
    (∀ (devices_stats : List JValue) (dev : JObj),
      main_site_branch true none dev devices_stats =
        .jsonText (dumps2 (.arr devices_stats)))
    ∧ dumps2 (.arr [.obj [("b".data, .num 1), ("a".data, .str "x".data)],
        .obj [("id".data, .str "g2".data)]]) =
      "[\n  \x7b\n    \"a\": \"x\",\n    \"b\": 1\n  \x7d,\n  \x7b\n    \"id\": \"g2\"\n  \x7d\n]".data :=
  ⟨fun _ _ => rfl, by decide⟩

/-- C6 counterexample: with `--limit 5` the sites-listing request still
carries `limit=1000` — `get_sites` hardcodes the page size and the
workflow does not thread its limit into it. -/
theorem c6_counterexample :
    limitParam (workflow_sites_call 5 "org1".data "https://api.example.com/api/v1".data) =
      some (.n 1000) ∧ PVal.n 1000 ≠ PVal.n 5 :=
  ⟨rfl, by decide⟩

/-- C6 (amended): the `--limit` value N (default 1000) is passed as the
page-size cap on the gateway-device-listing and gateway-statistics
requests, but the sites-listing request always carries `limit=1000`
regardless of N. -/
theorem c6_limit_params_amended :
    ∀ (N : Int) (site org base : Str),
      limitParam (workflow_sites_call N org base) = some (.n 1000) ∧
      limitParam (get_gateways_request site base N) = some (.n N) ∧
      limitParam (get_all_stats_request site base N) = some (.n N) ∧
      argsLimitDefault = 1000 :=
  fun _ _ _ _ => ⟨rfl, rfl, rfl, rfl⟩

/-- C7 counterexample: an object whose "results" field is not a sequence
is neither of the claim's two accepted shapes, yet the call accepts it
and returns the non-sequence payload instead of exiting. -/
theorem c7_counterexample :
    api_list_extract (.obj [("results".data, .num 42)]) = .ok (.num 42) ∧
    isArrV (.num 42) = false :=
  ⟨rfl, rfl⟩

/-- C7 (amended): each list call accepts a bare sequence (returned as
is) or any object containing the field "results" (returning that field's
value, whatever its shape); a scalar, or an object lacking "results",
makes it surface the raw payload and exit nonzero. -/
theorem c7_response_shapes_amended :
    (∀ xs, api_list_extract (.arr xs) = .ok (.arr xs))
    ∧ (∀ kvs v, objGet kvs "results".data = some v →
        api_list_extract (.obj kvs) = .ok v)
    ∧ (∀ kvs, objGet kvs "results".data = none →
        api_list_extract (.obj kvs) = .error (.obj kvs))
    ∧ api_list_extract .null = .error .null
    ∧ (∀ n, api_list_extract (.num n) = .error (.num n))
    ∧ (∀ b, api_list_extract (.bool b) = .error (.bool b))
    ∧ (∀ s, api_list_extract (.str s) = .error (.str s)) := by
  refine ⟨fun _ => rfl, ?_, ?_, rfl, fun _ => rfl, fun _ => rfl, fun _ => rfl⟩
  · intro kvs v h
    simp [api_list_extract, objHas, h]
  · intro kvs h
    simp [api_list_extract, objHas, h]

/-- C7 witness: the wrapped-shape case applied to a concrete payload. -/
theorem c7_witness :
    api_list_extract (.obj [("results".data, .arr [.num 7])]) = .ok (.arr [.num 7]) :=
  c7_response_shapes_amended.2.1 [("results".data, .arr [.num 7])] (.arr [.num 7]) rfl

/-- C4: the displayed site list excludes exactly the sites whose name
case-insensitively equals "main_site" unless that would empty the list,
in which case the unfiltered list is shown; it is never empty when the
fetched list is non-empty, and the two spec examples evaluate as given. -/
theorem c4_site_filtering :
    (∀ l : List Site, (siteFilter l ≠ [] ∧ displayedSites l = siteFilter l) ∨
      (siteFilter l = [] ∧ displayedSites l = l))
    ∧ (∀ l : List Site, l ≠ [] → displayedSites l ≠ [])
    ∧ displayedSites [⟨some "main_site".data, some "s1".data⟩,
        ⟨some "branch1".data, some "s2".data⟩] =
      [⟨some "branch1".data, some "s2".data⟩]
    ∧ displayedSites [⟨some "main_site".data, some "s1".data⟩] =
      [⟨some "main_site".data, some "s1".data⟩]
    ∧ displayedSites [⟨some "Main_Site".data, some "s1".data⟩, ⟨some "b".data, none⟩] =
      [⟨some "b".data, none⟩] := by
  refine ⟨?_, ?_, rfl, rfl, rfl⟩
  · intro l
    unfold displayedSites
    by_cases h : (siteFilter l).isEmpty
    · right
      refine ⟨?_, by simp [h]⟩
      cases hf : siteFilter l with
      | nil => rfl
      | cons a t => rw [hf] at h; simp at h
    · left
      refine ⟨?_, by simp [h]⟩
      intro hc
      rw [hc] at h
      simp at h
  · intro l hl
    unfold displayedSites
    by_cases h : (siteFilter l).isEmpty
    · simp [h]
      exact hl
    · simp [h]
      intro hc
      rw [hc] at h
      simp at h

/-- C4 witness: a non-empty fetched list displays a non-empty list. -/
theorem c4_witness : displayedSites [⟨some "x".data, none⟩] ≠ [] :=
  c4_site_filtering.2.1 [⟨some "x".data, none⟩] (by simp)

theorem pyOrJ_of_true {a b : Option JValue} (h : truthyO a = true) :
    pyOrJ a b = a := by
  simp [pyOrJ, h]

theorem pyOrJ_of_false {a b : Option JValue} (h : truthyO a = false) :
    pyOrJ a b = b := by
  simp [pyOrJ, h]

/-- C5: the statistics map is keyed by the first truthy of id, _id, MAC;
a selected gateway's id is looked up first and its MAC only as the final
fallback, as the two concrete scenarios of the claim illustrate. -/
theorem c5_stats_lookup :
    (∀ (st : JObj) (i : Str), objGet st "id".data = some (.str i) →
      i.isEmpty = false → statKey st = some i)
    ∧ (∀ (st : JObj) (v : Str), truthyO (objGet st "id".data) = false →
      objGet st "_id".data = some (.str v) → v.isEmpty = false → statKey st = some v)
    ∧ (∀ (st : JObj) (v : Str), truthyO (objGet st "id".data) = false →
      truthyO (objGet st "_id".data) = false →
      objGet st "mac".data = some (.str v) → v.isEmpty = false → statKey st = some v)
    ∧ (∀ (gw : Gateway) (m : List (Str × JObj)) (st : JObj),
      devIdOf gw ≠ [] → lookupStr m (devIdOf gw) = some st →
      resolveStats gw m = some st)
    ∧ (∀ (gw : Gateway) (m : List (Str × JObj)),
      devIdOf gw ≠ [] → lookupStr m (devIdOf gw) = none → macOf gw ≠ [] →
      resolveStats gw m = lookupStr m (macOf gw))
    ∧ resolveStats gwC5 (buildStatsByKey [stC5A, stC5B]) = some stC5A
    ∧ resolveStats gwC5 (buildStatsByKey [stC5B]) = some stC5B := by
  refine ⟨?_, ?_, ?_, ?_, ?_, rfl, rfl⟩
  · intro st i h hne
    have ht : truthyO (objGet st "id".data) = true := by
      rw [h]; simp [truthyO, truthyJ, hne]
    have e1 : pyOrJ (objGet st "id".data) (objGet st "_id".data) =
        objGet st "id".data := pyOrJ_of_true ht
    have e2 : pyOrJ (pyOrJ (objGet st "id".data) (objGet st "_id".data))
        (objGet st "mac".data) = objGet st "id".data := by
      rw [e1]; exact pyOrJ_of_true ht
    unfold statKey
    rw [e2, h]
    simp [truthyJ, hne, pyStr]
  · intro st v h0 h hne
    have e1 : pyOrJ (objGet st "id".data) (objGet st "_id".data) =
        objGet st "_id".data := pyOrJ_of_false h0
    have ht : truthyO (objGet st "_id".data) = true := by
      rw [h]; simp [truthyO, truthyJ, hne]
    have e2 : pyOrJ (pyOrJ (objGet st "id".data) (objGet st "_id".data))
        (objGet st "mac".data) = objGet st "_id".data := by
      rw [e1]; exact pyOrJ_of_true ht
    unfold statKey
    rw [e2, h]
    simp [truthyJ, hne, pyStr]
  · intro st v h0 h1 h hne
    have e1 : pyOrJ (objGet st "id".data) (objGet st "_id".data) =
        objGet st "_id".data := pyOrJ_of_false h0
    have e2 : pyOrJ (pyOrJ (objGet st "id".data) (objGet st "_id".data))
        (objGet st "mac".data) = objGet st "mac".data := by
      rw [e1]; exact pyOrJ_of_false h1
    unfold statKey
    rw [e2, h]
    simp [truthyJ, hne, pyStr]
  · intro gw m st hne hl
    have h1 : (devIdOf gw).isEmpty = false := isEmpty_false_of_ne_nil hne
    simp [resolveStats, invKeyOf, h1, hl]
  · intro gw m hne hl hm
    have h1 : (devIdOf gw).isEmpty = false := isEmpty_false_of_ne_nil hne
    have h2 : (macOf gw).isEmpty = false := isEmpty_false_of_ne_nil hm
    simp [resolveStats, invKeyOf, h1, h2, hl]

/-- C5 witness: id-first resolution applied to the concrete scenario. -/
theorem c5_witness :
    resolveStats gwC5 [("AA:BB".data, stC5B), ("dev1".data, stC5A)] = some stC5A :=
  c5_stats_lookup.2.2.2.1 gwC5 [("AA:BB".data, stC5B), ("dev1".data, stC5A)] stC5A
    (by decide) rfl

/-- C3: credential resolution tries the three formats in the fixed
order JSON, then key=value lines, then three positional lines, accepting
the first stage whose token and base url are truthy (org id optional):
the first conjunct is the JSON stage, the second the key=value stage
(fires exactly when the JSON stage fails, whatever the line layout), the
third the positional stage (when both earlier stages fail); then the two
concrete spec examples, and a key=value file (with a comment and a blank
line) whose kv result differs from a positional reading. -/
theorem c3_credential_resolution :
    (∀ (d : JDict) (raw : Str), (pyStrip raw).isEmpty = false →
      truthyS (jsonToken (some d)) = true → truthyS (jsonUrl (some d)) = true →
      load_token_org_url (some d) raw =
        some (pyStrip ((jsonToken (some d)).getD []), orgResult (jsonOrg (some d)),
          normalize_base_url ((jsonUrl (some d)).getD [])))
    ∧ (∀ (jsonRes : Option JDict) (raw : Str), (pyStrip raw).isEmpty = false →
      (truthyS (jsonToken jsonRes) && truthyS (jsonUrl jsonRes)) = false →
      (kvDict (credLines (pyStrip raw))).isEmpty = false →
      truthyS (kvToken (kvDict (credLines (pyStrip raw)))) = true →
      truthyS (lookupStr (kvDict (credLines (pyStrip raw))) "base_url".data) = true →
      load_token_org_url jsonRes raw =
        some (pyStrip ((kvToken (kvDict (credLines (pyStrip raw)))).getD []),
          orgResult (lookupStr (kvDict (credLines (pyStrip raw))) "org_id".data),
          normalize_base_url
            ((lookupStr (kvDict (credLines (pyStrip raw))) "base_url".data).getD [])))
    ∧ (∀ (jsonRes : Option JDict) (raw : Str) (t o u : Str) (restLines : List Str),
      (pyStrip raw).isEmpty = false →
      (truthyS (jsonToken jsonRes) && truthyS (jsonUrl jsonRes)) = false →
      (!(kvDict (credLines (pyStrip raw))).isEmpty &&
        (truthyS (kvToken (kvDict (credLines (pyStrip raw)))) &&
         truthyS (lookupStr (kvDict (credLines (pyStrip raw))) "base_url".data))) =
        false →
      credLines (pyStrip raw) = t :: o :: u :: restLines →
      (!t.isEmpty && !u.isEmpty) = true →
      load_token_org_url jsonRes raw =
        some (pyStrip t, orgResult (some o), normalize_base_url u))
    ∧ load_token_org_url
        (some [("token".data, "T".data), ("org_id".data, "O".data),
          ("base_url".data, "api.example.com".data)])
        "\x7b\"token\": \"T\", \"org_id\": \"O\", \"base_url\": \"api.example.com\"\x7d".data =
        some ("T".data, some "O".data, "https://api.example.com/api/v1".data)
    ∧ load_token_org_url none "T\nO\napi.example.com".data =
        some ("T".data, some "O".data, "https://api.example.com/api/v1".data)
    ∧ load_token_org_url none
        "# comment\n\ntoken=T\norg_id=O\nbase_url=api.example.com".data =
        some ("T".data, some "O".data, "https://api.example.com/api/v1".data) := by
  refine ⟨?_, ?_, ?_, by decide, by decide, by decide⟩
  · intro d raw hne ht hu
    simp [load_token_org_url, hne, ht, hu]
  · intro jsonRes raw hne hjson hkv ht hu
    simp [load_token_org_url, hne, hjson, hkv, ht, hu]
  · intro jsonRes raw t o u restLines hne hjson hkvfail hlines htu
    unfold load_token_org_url
    rw [hlines] at hkvfail
    have hlen : (t :: o :: u :: restLines).length ≥ 3 := by
      simp [List.length_cons]
    simp [hne, hjson, hlines, hkvfail, hlen, htu]

/-- C3 witness: the JSON-priority part applied to a concrete dict. -/
theorem c3_witness :
    load_token_org_url (some credDictEx) "x".data =
      some (pyStrip ((jsonToken (some credDictEx)).getD []),
        orgResult (jsonOrg (some credDictEx)),
        normalize_base_url ((jsonUrl (some credDictEx)).getD [])) :=
  c3_credential_resolution.1 credDictEx "x".data (by decide) (by decide) (by decide)

theorem sitePhase_shape (org : Option Str) (sr : List Site) (inputs : List Str)
    (out : SiteOutcome) (evs : List Ev) (rest : List Str)
    (h : sitePhase org sr inputs = some (out, evs, rest)) :
    (out = .stop ∧ (evs = [.noSites] ∨ evs = [.exitViewer] ∨ evs = [.errNoSiteId] ∨
      evs = [.orgMissing, .exitViewer]))
    ∨ (∃ sid, out = .proceed sid ∧ (evs = [] ∨ evs = [.orgMissing])) := by
  unfold sitePhase at h
  by_cases ho : truthyS org
  · simp only [ho, if_true] at h
    by_cases hs : sr.isEmpty
    · simp only [hs, if_true] at h
      simp at h
      exact Or.inl ⟨h.1.symm, Or.inl h.2.1.symm⟩
    · simp only [hs, Bool.false_eq_true, if_false] at h
      cases hc : choose_from_list ((displayedSites sr).map siteLabel) inputs with
      | none => rw [hc] at h; simp at h
      | some p =>
        obtain ⟨ro, rest1⟩ := p
        rw [hc] at h
        cases ro with
        | none =>
          simp at h
          exact Or.inl ⟨h.1.symm, Or.inr (Or.inl h.2.1.symm)⟩
        | some i =>
          dsimp only at h
          cases hg : (displayedSites sr).get? i with
          | none => rw [hg] at h; simp at h
          | some s =>
            rw [hg] at h
            dsimp only at h
            cases hid : s.id with
            | none =>
              rw [hid] at h; simp at h
              exact Or.inl ⟨h.1.symm, Or.inr (Or.inr (Or.inl h.2.1.symm))⟩
            | some sid =>
              rw [hid] at h
              by_cases he : sid.isEmpty
              · simp [he] at h
                exact Or.inl ⟨h.1.symm, Or.inr (Or.inr (Or.inl h.2.1.symm))⟩
              · simp [he] at h
                exact Or.inr ⟨sid, h.1.symm, Or.inl h.2.1⟩
  · simp only [ho, Bool.false_eq_true, if_false] at h
    cases inputs with
    | nil => simp at h
    | cons c rest0 =>
      by_cases hq : (pyStrip c).isEmpty || isQuitStr (toLowerStr (pyStrip c))
      · simp only [hq, if_true] at h
        simp at h
        exact Or.inl ⟨h.1.symm, Or.inr (Or.inr (Or.inr h.2.1.symm))⟩
      · simp only [hq, Bool.false_eq_true, if_false] at h
        simp at h
        exact Or.inr ⟨pyStrip c, h.1.symm, Or.inr h.2.1.symm⟩

theorem gatewayPhase_shape (gws : List Gateway) (stats : List JObj) (j : Bool)
    (inputs : List Str) (res : IterRes) (evs : List Ev) (rest : List Str)
    (h : gatewayPhase gws stats j inputs = some (res, evs, rest)) :
    res = .again ∧ (evs = [.noGateways] ∨ evs = [.listedGateways gws.length] ∨
      ∃ ev, isDisplayEv ev = true ∧ evs = [.listedGateways gws.length, ev, .ackWait]) := by
  unfold gatewayPhase at h
  by_cases hg : gws.isEmpty
  · simp only [hg, if_true] at h
    simp at h
    exact ⟨h.1.symm, Or.inl h.2.1.symm⟩
  · simp only [hg, Bool.false_eq_true, if_false] at h
    cases hc : choose_from_list (gatewayLabels gws) inputs with
    | none => rw [hc] at h; simp at h
    | some p =>
      obtain ⟨ro, rest1⟩ := p
      rw [hc] at h
      cases ro with
      | none =>
        simp at h
        exact ⟨h.1.symm, Or.inr (Or.inl h.2.1.symm)⟩
      | some gi =>
        dsimp only at h
        cases hgw : gws.get? gi with
        | none => rw [hgw] at h; simp at h
        | some gw =>
          rw [hgw] at h
          dsimp only at h
          cases rest1 with
          | nil => simp at h
          | cons r0 rs =>
            simp at h
            refine ⟨h.1.symm, Or.inr (Or.inr ⟨_, ?_, h.2.1.symm⟩)⟩
            cases hres : resolveStats gw (buildStatsByKey stats) with
            | none => simp [hres, isDisplayEv]
            | some s =>
              cases j with
              | true => simp [hres, isDisplayEv]
              | false => simp [hres, isDisplayEv]

/-- C1 counterexample: an empty (well-formed) site list is reported as
status text but ends the workflow (the iteration result is `stop`, the
model of `return`) instead of continuing the loop. -/
theorem c1_counterexample :
    outerIteration (some "o".data) [] (fun _ => []) (fun _ => []) false [] =
      some (.stop, [.noSites], []) ∧ IterRes.stop ≠ IterRes.again :=
  ⟨rfl, by decide⟩

/-- C1 (amended): an empty gateway list and a missing statistics record
are reported as plain status text and the workflow loops back to site
selection; an empty site list is likewise reported as plain status text
and is not an error, but it ends the interactive workflow by a normal
return instead of continuing. -/
theorem c1_empty_results_amended :
    (∀ (statsResp : List JObj) (jsonOut : Bool) (inputs : List Str),
      gatewayPhase [] statsResp jsonOut inputs = some (.again, [.noGateways], inputs))
    ∧ (∀ (gwsResp : List Gateway) (statsResp : List JObj) (jsonOut : Bool)
        (inputs : List Str) (gi : Nat) (r : Str) (rs : List Str) (gw : Gateway),
      gwsResp.isEmpty = false →
      choose_from_list (gatewayLabels gwsResp) inputs = some (some gi, r :: rs) →
      gwsResp.get? gi = some gw →
      resolveStats gw (buildStatsByKey statsResp) = none →
      gatewayPhase gwsResp statsResp jsonOut inputs =
        some (.again, [.listedGateways gwsResp.length, .noStatsFound, .ackWait], rs))
    ∧ (∀ (org : Str) (gws : Str → List Gateway) (stats : Str → List JObj)
        (jsonOut : Bool) (inputs : List Str), org.isEmpty = false →
      outerIteration (some org) [] gws stats jsonOut inputs =
        some (.stop, [.noSites], inputs)) := by
  refine ⟨fun _ _ _ => rfl, ?_, ?_⟩
  · intro gws statsResp j inputs gi r rs gw hne hch hget hres
    unfold gatewayPhase
    simp only [hne, Bool.false_eq_true, if_false]
    rw [hch]
    dsimp only
    rw [hget]
    dsimp only
    rw [hres]
  · intro org gws stats j inputs hne
    unfold outerIteration sitePhase
    simp [truthyS, hne]

/-- C1 witness: the no-matching-statistics case applied concretely. -/
theorem c1_witness :
    gatewayPhase [gwC5] [] false ["1".data, "x".data] =
      some (.again, [.listedGateways 1, .noStatsFound, .ackWait], []) :=
  c1_empty_results_amended.2.1 [gwC5] [] false ["1".data, "x".data] 0 "x".data [] gwC5
    rfl (by decide) rfl rfl

/-- C8 counterexample: the workflow also terminates without any quit
command — here the operator types "1" (not a quit) selecting a site that
has no id, and the iteration stops with the abort message. -/
theorem c8_counterexample :
    outerIteration (some "o".data) [⟨some "A".data, none⟩] (fun _ => []) (fun _ => [])
      false ["1".data] = some (.stop, [.errNoSiteId], []) ∧
    isQuitStr (toLowerStr (pyStrip "1".data)) = false :=
  ⟨rfl, rfl⟩

/-- C8 (amended): after every successful detail display (stats shown or
absence reported) the iteration blocks for acknowledgment and returns to
site selection; an iteration stops only with a quit message (site list
or org-less prompt), the empty-site-list message, or the missing-site-id
abort — never after a detail display. -/
theorem c8_workflow_termination_amended :
    ∀ (org : Option Str) (sitesResp : List Site) (gws : Str → List Gateway)
      (stats : Str → List JObj) (jsonOut : Bool) (inputs : List Str)
      (res : IterRes) (evs : List Ev) (rest : List Str),
      outerIteration org sitesResp gws stats jsonOut inputs = some (res, evs, rest) →
      (evs.any isDisplayEv = true → res = .again ∧ evs.any evAck = true) ∧
      (res = .stop → evs.any evTermMsg = true) := by
  intro org sr gws stats j inputs res evs rest h
  unfold outerIteration at h
  cases hsp : sitePhase org sr inputs with
  | none => rw [hsp] at h; simp at h
  | some t =>
    obtain ⟨out, evs1, rest1⟩ := t
    rw [hsp] at h
    cases out with
    | stop =>
      dsimp only at h
      simp only [Option.some.injEq, Prod.mk.injEq] at h
      obtain ⟨h1, h2, h3⟩ := h
      subst h2
      subst h3
      subst h1
      rcases sitePhase_shape org sr inputs .stop evs1 rest1 hsp with
        ⟨_, hca⟩ | ⟨sid, hpr, _⟩
      · constructor
        · intro hd
          exfalso
          rcases hca with rfl | rfl | rfl | rfl <;> simp [isDisplayEv] at hd
        · intro _
          rcases hca with rfl | rfl | rfl | rfl <;> rfl
      · exact absurd hpr (by simp)
    | proceed sid =>
      dsimp only at h
      cases hgp : gatewayPhase (gws sid) (stats sid) j rest1 with
      | none => rw [hgp] at h; simp at h
      | some t2 =>
        obtain ⟨res2, evs2, rest2⟩ := t2
        rw [hgp] at h
        dsimp only at h
        simp only [Option.some.injEq, Prod.mk.injEq] at h
        obtain ⟨h1, h2, h3⟩ := h
        subst h2
        subst h3
        subst h1
        have hgs := gatewayPhase_shape (gws sid) (stats sid) j rest1 res2 evs2 rest2 hgp
        rcases sitePhase_shape org sr inputs (.proceed sid) evs1 rest1 hsp with
          ⟨hst, _⟩ | ⟨sid', hpr, hevs1⟩
        · exact absurd hst (by simp)
        · obtain ⟨hag, hca⟩ := hgs
          subst hag
          constructor
          · intro hd
            refine ⟨rfl, ?_⟩
            rcases hevs1 with rfl | rfl <;>
              rcases hca with rfl | rfl | ⟨ev, hev, rfl⟩ <;>
              simp_all [List.any_append, List.any_cons, isDisplayEv, evAck]
          · intro hstop
            exact absurd hstop (by simp)

/-- C8 witness: a full iteration with a successful detail display, shown
to return to site selection with the acknowledgment prompt emitted. -/
theorem c8_witness :
    IterRes.again = IterRes.again ∧
      ([Ev.selectedSite "s1".data, Ev.listedGateways 1, Ev.shownStatsPretty stC5A,
        Ev.ackWait].any evAck) = true :=
  (c8_workflow_termination_amended (some "o".data) [⟨some "A".data, some "s1".data⟩]
    (fun _ => [gwC5]) (fun _ => [stC5A]) false ["1".data, "1".data, "x".data]
    .again
    [Ev.selectedSite "s1".data, Ev.listedGateways 1, Ev.shownStatsPretty stC5A,
      Ev.ackWait]
    [] rfl).1 rfl
